import Mathlib

set_option maxHeartbeats 1000000

/-!
Verification of the request reporting core of biosnoop
(src/libbpf-tools/biosnoop.c) against its natural-language
specification.  The C source is shallowly embedded: machine integers
become Nat/Int with explicit wraparound where the C arithmetic wraps,
the stdout/stderr effects of the handlers become explicit result
values, and the polling loop becomes a function over a finite trace of
poll outcomes.
-/

namespace Biosnoop

/-! ## Operation-flag constants

Modelled from the spec: the operation bitmask carries an operation
class in the low bits and single-bit modifiers (force-unit-access,
read-ahead, synchronous, metadata, pre-flush).  The numeric encodings
live in blk_types.h, which is not under src/; the values below are the
kernel encodings that header mirrors (op class in the low 8 bits,
REQ_SYNC..REQ_RAHEAD as single flag bits above them). -/

def REQ_OP_BITS : Nat := 8

def REQ_OP_MASK : Nat := (1 <<< REQ_OP_BITS) - 1

def REQ_OP_READ : Nat := 0

def REQ_OP_WRITE : Nat := 1

def REQ_OP_FLUSH : Nat := 2

def REQ_OP_DISCARD : Nat := 3

def REQ_OP_SECURE_ERASE : Nat := 5

def REQ_OP_WRITE_SAME : Nat := 7

def REQ_SYNC : Nat := 1 <<< 11

def REQ_META : Nat := 1 <<< 12

def REQ_FUA : Nat := 1 <<< 17

def REQ_PREFLUSH : Nat := 1 <<< 18

def REQ_RAHEAD : Nat := 1 <<< 19

/-- Modelled from the spec: the flag-string buffer bound (RWBS_LEN in
biosnoop.h, which is not under src/); the spec bounds the decoded
string at 8 characters. -/
def RWBS_LEN : Nat := 8

/-- Embedding of blk_fill_rwbs (biosnoop.c lines 118-157).  The C
function writes characters into the caller's buffer at increasing
indices and finally writes a NUL at the current index; the list below
is the sequence of characters written before that NUL, in write order.
The C switch on (op and REQ_OP_MASK) compares against distinct
constants, so the if-chain below in case order is the same first-match
dispatch. -/
def blk_fill_rwbs (op : Nat) : List Char :=
  (if op &&& REQ_PREFLUSH ≠ 0 then ['F'] else [])
    ++ (let c := op &&& REQ_OP_MASK
        if c = REQ_OP_WRITE ∨ c = REQ_OP_WRITE_SAME then ['W']
        else if c = REQ_OP_DISCARD then ['D']
        else if c = REQ_OP_SECURE_ERASE then ['D', 'E']
        else if c = REQ_OP_FLUSH then ['F']
        else if c = REQ_OP_READ then ['R']
        else ['N'])
    ++ (if op &&& REQ_FUA ≠ 0 then ['F'] else [])
    ++ (if op &&& REQ_RAHEAD ≠ 0 then ['A'] else [])
    ++ (if op &&& REQ_SYNC ≠ 0 then ['S'] else [])
    ++ (if op &&& REQ_META ≠ 0 then ['M'] else [])

/-- Modelled from the spec: the primary operation class of section 4.1,
mutually exclusive, first match wins (write-like, discard,
secure-erase, flush-only, read, otherwise N). -/
def primaryClassSpec (opClass : Nat) : List Char :=
  if opClass = REQ_OP_WRITE ∨ opClass = REQ_OP_WRITE_SAME then ['W']
  else if opClass = REQ_OP_DISCARD then ['D']
  else if opClass = REQ_OP_SECURE_ERASE then ['D', 'E']
  else if opClass = REQ_OP_FLUSH then ['F']
  else if opClass = REQ_OP_READ then ['R']
  else ['N']

/-- Modelled from the spec: the decode contract of section 4.1, built
in the spec's stated order: pre-flush letter, then the primary class,
then the modifier letters F, A, S, M. -/
def decodeSpecOrder (op : Nat) : List Char :=
  (if op &&& REQ_PREFLUSH ≠ 0 then ['F'] else [])
    ++ primaryClassSpec (op &&& REQ_OP_MASK)
    ++ (if op &&& REQ_FUA ≠ 0 then ['F'] else [])
    ++ (if op &&& REQ_RAHEAD ≠ 0 then ['A'] else [])
    ++ (if op &&& REQ_SYNC ≠ 0 then ['S'] else [])
    ++ (if op &&& REQ_META ≠ 0 then ['M'] else [])

theorem length_ite_single_le (P : Prop) [Decidable P] (x : Char) :
    (if P then [x] else []).length ≤ 1 := by
  split <;> simp

theorem primaryClassSpec_length (c : Nat) :
    1 ≤ (primaryClassSpec c).length ∧ (primaryClassSpec c).length ≤ 2 := by
  unfold primaryClassSpec
  split_ifs <;> simp

theorem blk_fill_rwbs_eq_specOrder (op : Nat) :
    blk_fill_rwbs op = decodeSpecOrder op := by
  rfl

theorem blk_fill_rwbs_length (op : Nat) :
    1 ≤ (blk_fill_rwbs op).length ∧ (blk_fill_rwbs op).length ≤ 7 := by
  have h := primaryClassSpec_length (op &&& REQ_OP_MASK)
  have h1 := length_ite_single_le (op &&& REQ_PREFLUSH ≠ 0) 'F'
  have h2 := length_ite_single_le (op &&& REQ_FUA ≠ 0) 'F'
  have h3 := length_ite_single_le (op &&& REQ_RAHEAD ≠ 0) 'A'
  have h4 := length_ite_single_le (op &&& REQ_SYNC ≠ 0) 'S'
  have h5 := length_ite_single_le (op &&& REQ_META ≠ 0) 'M'
  rw [blk_fill_rwbs_eq_specOrder]
  unfold decodeSpecOrder
  simp only [List.length_append]
  omega

/-- C6: the flag decoder is total (a Lean function on all of Nat) and
deterministic (equal masks give equal strings, inherent in a pure
function), and for every operation bitmask the decoded string is
non-empty and at most 8 characters long (the NUL terminator of the C
buffer sits one past these characters). -/
theorem C6_decoder_total_deterministic_bounded :
    (∀ op : Nat, blk_fill_rwbs op ≠ [] ∧ (blk_fill_rwbs op).length ≤ 8) ∧
    (∀ op₁ op₂ : Nat, op₁ = op₂ → blk_fill_rwbs op₁ = blk_fill_rwbs op₂) := by
  constructor
  · intro op
    have h := blk_fill_rwbs_length op
    constructor
    · intro hnil
      rw [hnil] at h
      simp at h
    · omega
  · intro op₁ op₂ h
    rw [h]

/-- C6 witness: the write-only mask decodes to a non-empty string of
at most 8 characters, and equal masks decode equally. -/
theorem C6_decoder_total_deterministic_bounded_witness :
    (blk_fill_rwbs 1 ≠ [] ∧ (blk_fill_rwbs 1).length ≤ 8) ∧
    blk_fill_rwbs 1 = blk_fill_rwbs 1 :=
  ⟨C6_decoder_total_deterministic_bounded.1 1,
   C6_decoder_total_deterministic_bounded.2 1 1 rfl⟩

/-- C7: the decoded string is built in the spec's exact order (leading
pre-flush F, one first-match primary class code, then the modifiers F,
A, S, M in that order), and in particular write-only decodes to W,
write with force-unit-access and synchronous to WFS, pre-flush plus
read to FR, secure-erase alone to DE, and an unrecognized class alone
to N. -/
theorem C7_decoder_order_and_examples :
    (∀ op : Nat, blk_fill_rwbs op = decodeSpecOrder op) ∧
    blk_fill_rwbs REQ_OP_WRITE = ['W'] ∧
    blk_fill_rwbs (REQ_OP_WRITE ||| REQ_FUA ||| REQ_SYNC) = ['W', 'F', 'S'] ∧
    blk_fill_rwbs (REQ_PREFLUSH ||| REQ_OP_READ) = ['F', 'R'] ∧
    blk_fill_rwbs REQ_OP_SECURE_ERASE = ['D', 'E'] ∧
    blk_fill_rwbs 4 = ['N'] := by
  refine ⟨fun op => blk_fill_rwbs_eq_specOrder op, ?_, ?_, ?_, ?_, ?_⟩ <;> decide

/-- C10: for every operation bitmask the decoder writes at most 8
bytes into the caller's buffer: at most 7 flag characters plus the
terminating NUL written one index past them, so a buffer of RWBS_LEN
(= 8) bytes as allocated in handle_event is never overrun. -/
theorem C10_decoder_fits_buffer :
    ∀ op : Nat,
      (blk_fill_rwbs op).length ≤ 7 ∧
      (blk_fill_rwbs op).length + 1 ≤ RWBS_LEN := by
  intro op
  have h := blk_fill_rwbs_length op
  unfold RWBS_LEN
  omega

/-! ## Device/partition table -/

/-- Modelled from the spec: one entry of the device/partition table, a
(device id, display name) pair. -/
structure Partition where
  name : String
  dev : Nat
  deriving DecidableEq

/-- Modelled from the spec: exact-match lookup of a device id in the
table loaded at startup (the lookup service partitions__get_by_dev of
trace_helpers is not under src/). -/
def partitions__get_by_dev (parts : List Partition) (dev : Nat) : Option Partition :=
  parts.find? (fun p => p.dev == dev)

/-- Modelled from the spec: exact-match lookup of a display name in
the table (partitions__get_by_name of trace_helpers, not under src/),
used once at startup to validate a configured -d name. -/
def partitions__get_by_name (parts : List Partition) (nm : String) : Option Partition :=
  parts.find? (fun p => p.name == nm)

/-- Modelled from the spec: the kernel encoding of a major:minor
device id, used only to write concrete table entries such as 8:0. -/
def mkdev (ma mi : Nat) : Nat := (ma <<< 20) ||| mi

/-! ## Event records and the event handler -/

/-- Modelled from the spec: the wire event record of section 3 (struct
event of biosnoop.h, which is not under src/).  qdelta is the queued
time in nanoseconds with -1 as the not-applicable sentinel; ts, sector
and delta are unsigned 64-bit values, kept as Nat. -/
structure Event where
  comm : String
  pid : Nat
  dev : Nat
  cmd_flags : Nat
  sector : Nat
  len : Nat
  qdelta : Int
  delta : Nat
  ts : Nat
  deriving DecidableEq

def defaultEvent : Event := ⟨"", 0, 0, 0, 0, 0, 0, 0, 0⟩

/-- One rendered stdout data line of handle_event, field by field:
time is the TIME(s) value in seconds, queue the optional QUE(ms) value
in milliseconds (none when the column is not configured), lat the
LAT(ms) value in milliseconds. -/
structure Row where
  time : ℚ
  comm : String
  pid : Nat
  disk : String
  rwbs : List Char
  sector : Nat
  len : Nat
  queue : Option ℚ
  lat : ℚ
  deriving DecidableEq

def defaultRow : Row := ⟨0, "", 0, "", [], 0, 0, none, 0⟩

/-- Unsigned 64-bit subtraction, as the C expression (e->ts - start_ts)
computes it on __u64 operands. -/
def u64sub (a b : Nat) : Nat := (a + (2 ^ 64 - b % 2 ^ 64)) % 2 ^ 64

theorem u64sub_eq_sub (a b : Nat) (hba : b ≤ a) (ha : a < 2 ^ 64) :
    u64sub a b = a - b := by
  unfold u64sub
  omega

/-- Embedding of handle_event (biosnoop.c lines 161-179).  The global
start_ts (0 meaning unset, as in the C test !start_ts) is passed in
and the updated value returned; the printf calls become the returned
Row.  The %-14.14s conversion truncates comm to 14 characters; the
queue cell is rendered only when queued-time inclusion is configured,
and carries -1 (not -1/1e6) when qdelta is the sentinel. -/
def handle_event (queued : Bool) (parts : List Partition) (start_ts : Nat)
    (e : Event) : Nat × Row :=
  let st := if start_ts = 0 then e.ts else start_ts
  let rwbs := blk_fill_rwbs e.cmd_flags
  let part := partitions__get_by_dev parts e.dev
  (st,
    ⟨(u64sub e.ts st : ℚ) / 1000000000,
     e.comm.take 14,
     e.pid,
     (match part with
      | some p => p.name
      | none => "Unknown"),
     rwbs,
     e.sector,
     e.len,
     (if queued then
        some (if e.qdelta ≠ -1 then (e.qdelta : ℚ) / 1000000 else -1)
      else none),
     (e.delta : ℚ) / 1000000⟩)

/-- Dispatch of a sequence of delivered event records to handle_event
in arrival order, threading the start_ts global. -/
def processEvents (queued : Bool) (parts : List Partition) :
    Nat → List Event → Nat × List Row
  | st, [] => (st, [])
  | st, e :: es =>
    let r := handle_event queued parts st e
    let rest := processEvents queued parts r.1 es
    (rest.1, r.2 :: rest.2)

/-- One delivery-channel notification inside a poll cycle: either a
record (dispatched to handle_event) or a lost-records notification
(dispatched to handle_lost_events). -/
inductive ChannelItem where
  | record (e : Event)
  | lost (cpu : Nat) (cnt : Nat)
  deriving DecidableEq

/-- One stderr diagnostic of handle_lost_events (biosnoop.c lines
181-184): the dropped-record count and the CPU it came from. -/
structure LostDiag where
  cpu : Nat
  cnt : Nat
  deriving DecidableEq

def ChannelItem.isRec : ChannelItem → Bool
  | .record _ => true
  | .lost _ _ => false

def ChannelItem.lostDiag : ChannelItem → Option LostDiag
  | .record _ => none
  | .lost cpu cnt => some ⟨cpu, cnt⟩

/-- Callback dispatch over the notifications of a poll cycle: records
go to handle_event and yield stdout rows, lost notifications go to
handle_lost_events and yield stderr diagnostics. -/
def processItems (queued : Bool) (parts : List Partition) :
    Nat → List ChannelItem → Nat × List Row × List LostDiag
  | st, [] => (st, [], [])
  | st, .record e :: rest =>
    let r := handle_event queued parts st e
    let t := processItems queued parts r.1 rest
    (t.1, r.2 :: t.2.1, t.2.2)
  | st, .lost cpu cnt :: rest =>
    let t := processItems queued parts st rest
    (t.1, t.2.1, LostDiag.mk cpu cnt :: t.2.2)

/-- Embedding of the header printf calls of main (biosnoop.c lines
306-310): the column titles in print order, with QUE(ms) present only
when queued-time inclusion is configured. -/
def header (queued : Bool) : List String :=
  ["TIME(s)", "COMM", "PID", "DISK", "T", "SECTOR", "BYTES"]
    ++ (if queued then ["QUE(ms)"] else [])
    ++ ["LAT(ms)"]

def pad3 (n : Nat) : String :=
  if n < 10 then "00" ++ toString n
  else if n < 100 then "0" ++ toString n
  else toString n

/-- Fixed three-decimal rendering of a value given in integer
thousandths, as the %.3f conversion prints a value that is exact in
thousandths (field width padding aside); used to state the literal
sentinel rendering of the queue cell. -/
def fmtMilli (m : Int) : String :=
  (if m < 0 then "-" else "")
    ++ toString (m.natAbs / 1000)
    ++ "."
    ++ pad3 (m.natAbs % 1000)

/-! ## Polling loop -/

/-- Modelled from the spec: the EINTR errno value the loop tolerates
(errno.h is outside the repository); its value does not affect any
claim settled here. -/
def EINTR : Int := 4

/-- What one iteration of the poll loop observes: the exiting flag at
the loop-condition check, the return value of perf_buffer__poll, and
the monotonic time get_ktime_ns() reads afterwards. -/
structure LoopStep where
  exiting : Bool
  pollRet : Int
  now : Nat
  deriving DecidableEq

inductive ExitReason where
  | interrupt
  | duration
  | pollError
  deriving DecidableEq

/-- Embedding of the poll loop of main (biosnoop.c lines 322-333) over
a finite trace of iterations: err carries the C variable of the same
name into the loop (0 after successful setup); the loop leaves with
the err value that reaches the cleanup label, or with err 0 when the
exiting flag breaks the while condition.  none means the trace ended
without the loop terminating. -/
def pollLoop (dur : Bool) (timeEnd : Nat) :
    Int → List LoopStep → Option (Int × ExitReason)
  | _, [] => none
  | err, s :: rest =>
    if s.exiting then some (err, .interrupt)
    else
      let e := s.pollRet
      if e < 0 ∧ e ≠ -EINTR then some (e, .pollError)
      else if dur ∧ s.now > timeEnd then some (e, .duration)
      else pollLoop dur timeEnd 0 rest

/-- The return statement of main (biosnoop.c line 343): the process
exit status is err != 0. -/
def exitStatusOfErr (err : Int) : Nat := if err ≠ 0 then 1 else 0

/-! ## Setup phase of main -/

/-- The configuration main carries into setup (struct env after
argument parsing): the optional -d disk name, -Q, and -c. -/
structure SetupEnv where
  disk : Option String
  queued : Bool
  cg : Bool
  deriving DecidableEq

/-- Outcomes of the external calls main makes during setup, in program
order; the errno fields hold the errno value observed when the
corresponding call fails. -/
structure SetupWorld where
  openOk : Bool
  partsOk : Bool
  table : List Partition
  loadRet : Int
  cgOpenOk : Bool
  cgUpdateOk : Bool
  attachStartOk : Bool
  errnoAttachStart : Int
  ksymsOk : Bool
  hasMergeSym : Bool
  attachMergeOk : Bool
  errnoAttachMerge : Int
  attachInsertOk : Bool
  errnoAttachInsert : Int
  attachIssueOk : Bool
  errnoAttachIssue : Int
  attachCompleteOk : Bool
  errnoAttachComplete : Int
  pbOk : Bool
  errnoPb : Int
  signalOk : Bool
  deriving DecidableEq

/-- Result of the setup phase: abort carries the err value that
reaches cleanup (or the direct return 1 on open failure) together with
the stderr diagnostic printed; ready means the poll loop is entered
with err = 0. -/
inductive SetupResult where
  | abort (err : Int) (diag : String)
  | ready
  deriving DecidableEq

def ENOMEM : Int := 12

/-- Embedding of main's setup phase (biosnoop.c lines 202-320),
following the goto-cleanup chain statement by statement.  err is 0
after successful argp_parse and is only reassigned where the C
assigns it: biosnoop_bpf__load's return, err = -errno at attach and
perf-buffer failures, err = -ENOMEM at the kallsyms failure, and
err = 1 at the signal-handler failure; the partition-table, disk-name
and cgroup failure paths jump to cleanup without touching err. -/
def setup (env : SetupEnv) (w : SetupWorld) : SetupResult :=
  if ¬ w.openOk then .abort 1 "failed to open BPF object"
  else if ¬ w.partsOk then .abort 0 "failed to load partitions info"
  else if env.disk.any (fun d => (partitions__get_by_name w.table d).isNone) then
    .abort 0 "invaild partition name: not exist"
  else if w.loadRet ≠ 0 then .abort (w.loadRet) "failed to load BPF object"
  else if env.cg ∧ ¬ w.cgOpenOk then .abort 0 "Failed opening Cgroup path"
  else if env.cg ∧ ¬ w.cgUpdateOk then .abort 0 "Failed adding target cgroup to map"
  else if ¬ w.attachStartOk then
    .abort (-w.errnoAttachStart) "failed to attach blk_account_io_start"
  else if ¬ w.ksymsOk then .abort (-ENOMEM) "failed to load kallsyms"
  else if w.hasMergeSym ∧ ¬ w.attachMergeOk then
    .abort (-w.errnoAttachMerge) "failed to attach blk_account_io_merge_bio"
  else if env.queued ∧ ¬ w.attachInsertOk then
    .abort (-w.errnoAttachInsert) "failed to attach block_rq_insert"
  else if ¬ w.attachIssueOk then
    .abort (-w.errnoAttachIssue) "failed to attach block_rq_issue"
  else if ¬ w.attachCompleteOk then
    .abort (-w.errnoAttachComplete) "failed to attach block_rq_complete"
  else if ¬ w.pbOk then .abort (-w.errnoPb) "failed to open perf buffer"
  else if ¬ w.signalOk then .abort 1 "cannot set signal handler"
  else .ready

/-- The process exit status a setup result leads to: an abort reaches
cleanup and returns err != 0 (the direct return 1 on open failure
yields the same status as abort with err 1); none when the loop is
entered instead. -/
def setupExitStatus : SetupResult → Option Nat
  | .abort err _ => some (exitStatusOfErr err)
  | .ready => none

/-- A setup world in which every external call succeeds, over a given
device table. -/
def allOkWorld (table : List Partition) : SetupWorld :=
  ⟨true, true, table, 0, true, true, true, 0, true, true, true, 0,
   true, 0, true, 0, true, 0, true, 0, true⟩

/-! ## Correlation baseline (claim C4) -/

theorem handle_event_fst (queued : Bool) (parts : List Partition)
    (st : Nat) (e : Event) :
    (handle_event queued parts st e).1 = if st = 0 then e.ts else st := rfl

theorem handle_event_time (queued : Bool) (parts : List Partition)
    (st : Nat) (e : Event) :
    ((handle_event queued parts st e).2).time
      = (u64sub e.ts (if st = 0 then e.ts else st) : ℚ) / 1000000000 := rfl

theorem processEvents_fst_of_ne (queued : Bool) (parts : List Partition) :
    ∀ (es : List Event) (st : Nat), st ≠ 0 →
      (processEvents queued parts st es).1 = st := by
  intro es
  induction es with
  | nil => intro st h; rfl
  | cons e es ih =>
    intro st h
    have hfst : (handle_event queued parts st e).1 = st := by
      rw [handle_event_fst, if_neg h]
    simp only [processEvents, hfst]
    exact ih st h

theorem processEvents_time_of_ne (queued : Bool) (parts : List Partition) :
    ∀ (es : List Event) (st i : Nat), st ≠ 0 → i < es.length →
      (((processEvents queued parts st es).2.getD i defaultRow)).time
        = (u64sub ((es.getD i defaultEvent)).ts st : ℚ) / 1000000000 := by
  intro es
  induction es with
  | nil => intro st i h hi; simp at hi
  | cons e es ih =>
    intro st i h hi
    have hfst : (handle_event queued parts st e).1 = st := by
      rw [handle_event_fst, if_neg h]
    cases i with
    | zero =>
      simp only [processEvents, hfst, List.getD_cons_zero]
      rw [handle_event_time, if_neg h]
    | succ j =>
      have hj : j < es.length := by simpa using hi
      simp only [processEvents, hfst, List.getD_cons_succ]
      exact ih st j h hj

/-- C4 (amended): provided the very first record's timestamp is a
nonzero 64-bit value, the baseline is set to it by that first record
and never changes afterwards; the first record renders relative time
0, and every subsequent record whose timestamp is at least the
baseline (and below 2^64) renders (record.timestamp -
first_record.timestamp) / 1e9 seconds.  (A first record with timestamp
0 is indistinguishable from the unset state of start_ts and does not
fix the baseline; see the counterexample.) -/
theorem C4_baseline_set_once_amended (queued : Bool) (parts : List Partition)
    (e0 : Event) (es : List Event) (h0 : e0.ts ≠ 0) (h64 : e0.ts < 2 ^ 64) :
    (processEvents queued parts 0 (e0 :: es)).1 = e0.ts ∧
    ((processEvents queued parts 0 (e0 :: es)).2.getD 0 defaultRow).time = 0 ∧
    ∀ i : Nat, i < es.length → e0.ts ≤ ((es.getD i defaultEvent)).ts →
      ((es.getD i defaultEvent)).ts < 2 ^ 64 →
      ((processEvents queued parts 0 (e0 :: es)).2.getD (i + 1) defaultRow).time
        = ((((es.getD i defaultEvent)).ts : ℚ) - (e0.ts : ℚ)) / 1000000000 := by
  have hfst : (handle_event queued parts 0 e0).1 = e0.ts := by
    rw [handle_event_fst, if_pos rfl]
  refine ⟨?_, ?_, ?_⟩
  · simp only [processEvents, hfst]
    exact processEvents_fst_of_ne queued parts es e0.ts h0
  · simp only [processEvents, hfst, List.getD_cons_zero]
    rw [handle_event_time, if_pos rfl]
    rw [u64sub_eq_sub e0.ts e0.ts le_rfl h64]
    simp
  · intro i hi hle hlt
    simp only [processEvents, hfst, List.getD_cons_succ]
    rw [processEvents_time_of_ne queued parts es e0.ts i h0 hi]
    rw [u64sub_eq_sub _ _ hle hlt]
    rw [Nat.cast_sub hle]

/-- C4 witness: for the spec's sample timestamps 1000 and 1500, the
baseline is 1000 and the second record renders 500 / 1e9 seconds. -/
theorem C4_baseline_set_once_amended_witness :
    (processEvents false [] 0
        [⟨"a", 1, 0, 0, 0, 0, 0, 0, 1000⟩, ⟨"b", 2, 0, 0, 0, 0, 0, 0, 1500⟩]).1
      = 1000 ∧
    ((processEvents false [] 0
        [⟨"a", 1, 0, 0, 0, 0, 0, 0, 1000⟩, ⟨"b", 2, 0, 0, 0, 0, 0, 0, 1500⟩]).2.getD
        1 defaultRow).time
      = ((1500 : ℚ) - (1000 : ℚ)) / 1000000000 := by
  have h := C4_baseline_set_once_amended false []
    ⟨"a", 1, 0, 0, 0, 0, 0, 0, 1000⟩ [⟨"b", 2, 0, 0, 0, 0, 0, 0, 1500⟩]
    (by decide) (by decide)
  refine ⟨h.1, ?_⟩
  have h2 := h.2.2 0 (by decide) (by decide) (by decide)
  simpa using h2

/-- C4 counterexample: a first record with timestamp 0 leaves start_ts
at its unset value 0, so the baseline is taken from the second record
instead: after the two records the baseline is 5000000000 (not the
first record's timestamp), and the second record renders relative time
0 where the claim's formula (5000000000 - 0) / 1e9 gives 5 seconds. -/
theorem C4_baseline_counterexample :
    (processEvents false [] 0
        [⟨"a", 1, 0, 0, 0, 0, 0, 0, 0⟩,
         ⟨"b", 2, 0, 0, 0, 0, 0, 0, 5000000000⟩]).1 = 5000000000 ∧
    ((processEvents false [] 0
        [⟨"a", 1, 0, 0, 0, 0, 0, 0, 0⟩,
         ⟨"b", 2, 0, 0, 0, 0, 0, 0, 5000000000⟩]).2.getD 1 defaultRow).time
      = 0 ∧
    ((5000000000 : ℚ) - (0 : ℚ)) / 1000000000 = 5 ∧
    (0 : ℚ) ≠ 5 := by
  refine ⟨by decide, ?_, by norm_num, by norm_num⟩
  simp only [processEvents, handle_event, List.getD_cons_succ, List.getD_cons_zero]
  norm_num [u64sub]

/-! ## Queue column, device resolution, overflow handling -/

/-- C5: with queued-time inclusion configured, every rendered line
carries a queue cell whose value is qdelta/1e6 for a non-sentinel
delta and exactly -1 for the sentinel (the value printed with three
decimals as the literal -1.000, never the result of dividing the
sentinel by 1e6); without it, no queue cell appears in any data line
and no QUE(ms) column in the header. -/
theorem C5_queue_column_rendering (parts : List Partition) (st : Nat) (e : Event) :
    ((handle_event true parts st e).2.queue
      = some (if e.qdelta ≠ -1 then (e.qdelta : ℚ) / 1000000 else -1)) ∧
    (e.qdelta = -1 →
      (handle_event true parts st e).2.queue = some (-1) ∧
      ((-1 : ℚ) * 1000 = ((-1000 : Int) : ℚ)) ∧
      fmtMilli (-1000) = "-1.000" ∧
      ((-1 : ℚ) / 1000000) ≠ (-1 : ℚ)) ∧
    (e.qdelta ≠ -1 →
      (handle_event true parts st e).2.queue = some ((e.qdelta : ℚ) / 1000000)) ∧
    ("QUE(ms)" ∈ header true) ∧
    ((handle_event false parts st e).2.queue = none) ∧
    ("QUE(ms)" ∉ header false) := by
  refine ⟨?_, ?_, ?_, ?_, ?_, ?_⟩
  · simp [handle_event]
  · intro h
    refine ⟨by simp [handle_event, h], by norm_num, by decide, by norm_num⟩
  · intro h
    simp [handle_event, h]
  · decide
  · simp [handle_event]
  · decide

/-- C5 witness: a sentinel record renders queue value -1 (displayed
-1.000), and a 2000000 ns delta renders queue value 2 ms. -/
theorem C5_queue_column_rendering_witness :
    (handle_event true [] 0 ⟨"a", 1, 0, 0, 0, 0, -1, 0, 0⟩).2.queue = some (-1) ∧
    fmtMilli (-1000) = "-1.000" ∧
    ((-1 : ℚ) / 1000000) ≠ (-1 : ℚ) ∧
    (handle_event true [] 0 ⟨"a", 1, 0, 0, 0, 0, 2000000, 0, 0⟩).2.queue
      = some (((2000000 : Int) : ℚ) / 1000000) := by
  have h1 := (C5_queue_column_rendering [] 0 ⟨"a", 1, 0, 0, 0, 0, -1, 0, 0⟩).2.1 rfl
  have h2 := (C5_queue_column_rendering [] 0 ⟨"a", 1, 0, 0, 0, 0, 2000000, 0, 0⟩).2.2.1
    (by decide)
  exact ⟨h1.1, h1.2.2.1, h1.2.2.2, h2⟩

/-- C8: device resolution is total and never fails: when the event's
device id has an entry in the table the rendered DISK column is that
entry's display name, otherwise it is exactly the placeholder Unknown;
the lookup succeeds precisely when some table entry carries the id. -/
theorem C8_device_resolution (queued : Bool) (parts : List Partition)
    (st : Nat) (e : Event) :
    (∀ p : Partition, partitions__get_by_dev parts e.dev = some p →
      (handle_event queued parts st e).2.disk = p.name) ∧
    (partitions__get_by_dev parts e.dev = none →
      (handle_event queued parts st e).2.disk = "Unknown") ∧
    ((partitions__get_by_dev parts e.dev).isSome ↔ ∃ p ∈ parts, p.dev = e.dev) := by
  refine ⟨?_, ?_, ?_⟩
  · intro p hp
    simp [handle_event, hp]
  · intro h
    simp [handle_event, h]
  · unfold partitions__get_by_dev
    rw [List.find?_isSome]
    simp

/-- C8 witness: the spec's example table, with resolve(8:0) = sda and
resolve(8:16) = Unknown. -/
theorem C8_device_resolution_witness :
    (handle_event false [⟨"sda", mkdev 8 0⟩] 0
        ⟨"x", 1, mkdev 8 0, 0, 0, 0, 0, 0, 0⟩).2.disk = "sda" ∧
    (handle_event false [⟨"sda", mkdev 8 0⟩] 0
        ⟨"y", 2, mkdev 8 16, 0, 0, 0, 0, 0, 0⟩).2.disk = "Unknown" := by
  constructor
  · exact (C8_device_resolution false [⟨"sda", mkdev 8 0⟩] 0
        ⟨"x", 1, mkdev 8 0, 0, 0, 0, 0, 0, 0⟩).1 ⟨"sda", mkdev 8 0⟩ (by decide)
  · exact (C8_device_resolution false [⟨"sda", mkdev 8 0⟩] 0
        ⟨"y", 2, mkdev 8 16, 0, 0, 0, 0, 0, 0⟩).2.1 (by decide)

/-- C9: a lost-records notification is never fatal and never becomes a
data row: rows on stdout come one per record item only, each lost item
yields exactly one stderr diagnostic carrying its count and CPU, and a
poll cycle that returned without error (return value at least 0, as
when overflows were reported) keeps the loop running. -/
theorem C9_overflow_not_fatal (queued : Bool) (parts : List Partition) :
    (∀ (st : Nat) (items : List ChannelItem),
      (processItems queued parts st items).2.1.length
        = (items.filter ChannelItem.isRec).length ∧
      (processItems queued parts st items).2.2
        = items.filterMap ChannelItem.lostDiag) ∧
    (∀ (dur : Bool) (timeEnd : Nat) (err : Int) (s : LoopStep)
        (rest : List LoopStep),
      s.exiting = false → 0 ≤ s.pollRet → ¬(dur = true ∧ s.now > timeEnd) →
      pollLoop dur timeEnd err (s :: rest) = pollLoop dur timeEnd 0 rest) := by
  constructor
  · intro st items
    induction items generalizing st with
    | nil => simp [processItems]
    | cons it rest ih =>
      cases it with
      | record e =>
        simp [processItems, ChannelItem.isRec, ChannelItem.lostDiag,
          ih ((handle_event queued parts st e).1)]
      | lost cpu cnt =>
        simp [processItems, ChannelItem.isRec, ChannelItem.lostDiag, ih st]
  · intro dur timeEnd err s rest h1 h2 h3
    simp only [pollLoop, h1, Bool.false_eq_true, if_false]
    rw [if_neg (fun hc => absurd hc.1 (not_lt.2 h2)), if_neg h3]

/-- C9 witness: an overflow of 7 records on CPU 2 yields no stdout row
and one stderr diagnostic with that count and CPU, and a poll cycle
returning 0 with an overflow continues the loop. -/
theorem C9_overflow_not_fatal_witness :
    (processItems false [] 0 [ChannelItem.lost 2 7]).2.1.length = 0 ∧
    (processItems false [] 0 [ChannelItem.lost 2 7]).2.2 = [⟨2, 7⟩] ∧
    pollLoop true 100 5 [⟨false, 0, 50⟩] = pollLoop true 100 0 [] := by
  have h := C9_overflow_not_fatal false []
  refine ⟨?_, ?_, ?_⟩
  · simpa [ChannelItem.isRec] using (h.1 0 [ChannelItem.lost 2 7]).1
  · simpa [ChannelItem.lostDiag] using (h.1 0 [ChannelItem.lost 2 7]).2
  · exact h.2 true 100 5 ⟨false, 0, 50⟩ [] rfl (by decide) (by decide)

/-! ## Setup and termination exit-status findings (claims C1, C2, C3) -/

def sdaStr : String := "sda"

def sdzStr : String := "sdz"

/-- C1 finding: the partition-table, disk-name and cgroup failure
paths print their diagnostic and skip the loop but jump to cleanup
with err still 0, so the process exit status err != 0 is 0, against
both the spec and the companion error paths (open and load failures)
that do exit non-zero. -/
theorem C1_fatal_setup_exit_status_zero :
    (setup ⟨none, false, false⟩
        ⟨true, false, [], 0, true, true, true, 0, true, true, true, 0,
         true, 0, true, 0, true, 0, true, 0, true⟩
      = SetupResult.abort 0 "failed to load partitions info") ∧
    (setupExitStatus (setup ⟨none, false, false⟩
        ⟨true, false, [], 0, true, true, true, 0, true, true, true, 0,
         true, 0, true, 0, true, 0, true, 0, true⟩) = some 0) ∧
    (setup ⟨some sdzStr, false, false⟩ (allOkWorld [⟨"sda", mkdev 8 0⟩])
      = SetupResult.abort 0 "invaild partition name: not exist") ∧
    (setupExitStatus (setup ⟨some sdzStr, false, false⟩
        (allOkWorld [⟨"sda", mkdev 8 0⟩])) = some 0) ∧
    (setup ⟨none, false, true⟩
        ⟨true, true, [], 0, false, true, true, 0, true, true, true, 0,
         true, 0, true, 0, true, 0, true, 0, true⟩
      = SetupResult.abort 0 "Failed opening Cgroup path") ∧
    (setupExitStatus (setup ⟨none, false, true⟩
        ⟨true, true, [], 0, false, true, true, 0, true, true, true, 0,
         true, 0, true, 0, true, 0, true, 0, true⟩) = some 0) ∧
    (setupExitStatus (setup ⟨none, false, false⟩
        ⟨false, true, [], 0, true, true, true, 0, true, true, true, 0,
         true, 0, true, 0, true, 0, true, 0, true⟩) = some 1) := by
  decide

/-- C2 finding: with -d sda validated against a table holding only
8:0 = sda, setup still reaches the loop with no device filter
installed (no rodata or map carries the resolved device), and an event
for the unconfigured device 8:16 is rendered as a full data line (with
DISK = Unknown) instead of being suppressed. -/
theorem C2_disk_filter_not_applied :
    (setup ⟨some sdaStr, false, false⟩ (allOkWorld [⟨"sda", mkdev 8 0⟩])
      = SetupResult.ready) ∧
    ((processEvents false [⟨"sda", mkdev 8 0⟩] 0
        [⟨"dd", 42, mkdev 8 16, 1, 100, 4096, 1000, 2000000, 1000⟩]).2.length
      = 1) ∧
    (((processEvents false [⟨"sda", mkdev 8 0⟩] 0
        [⟨"dd", 42, mkdev 8 16, 1, 100, 4096, 1000, 2000000, 1000⟩]).2.getD 0
        defaultRow).disk = "Unknown") := by
  refine ⟨by decide, by decide, by decide⟩

/-- C3 finding: when the duration deadline expires the loop jumps to
cleanup with err still holding the final perf_buffer__poll return
value, so a final poll that consumed records (return 3 here) makes the
clean duration exit return status 1; the operator-interrupt exit keeps
err reset to 0 and returns status 0. -/
theorem C3_duration_exit_status_one :
    (pollLoop true 100 0 [⟨false, 3, 200⟩] = some (3, ExitReason.duration)) ∧
    (exitStatusOfErr 3 = 1) ∧
    (pollLoop false 0 0 [⟨true, 0, 0⟩] = some (0, ExitReason.interrupt)) ∧
    (exitStatusOfErr 0 = 0) := by
  decide

end Biosnoop
